import Mathlib

/-!
Shallow embedding of the LoveCare scoring engine
(`backend/app/service/scoring.py`) and of the analysis endpoint
(`main.py`), together with theorems checking the specification claims.

Python floats are modelled as exact rationals (and as reals where a
square root occurs); `round(x, n)` is modelled as round-half-to-even at
`n` decimal digits, which is the idealized semantics of the Python
builtin on exact values.
-/

namespace LoveCare

/-- Idealized model of the Python builtin `round` to an integer:
round half to even. -/
def roundHE {K : Type} [LinearOrderedField K] [FloorRing K] (x : K) : ℤ :=
  let f : ℤ := ⌊x⌋
  if x - f < 1 / 2 then f
  else if 1 / 2 < x - f then f + 1
  else if f % 2 = 0 then f else f + 1

/-- Model of Python `round(x, n)` for a nonnegative digit count `n`. -/
def roundTo {K : Type} [LinearOrderedField K] [FloorRing K] (n : ℕ) (x : K) : K :=
  ((roundHE (x * 10 ^ n) : ℤ) : K) / 10 ^ n

/-- `clamp` from scoring.py: `max(lo, min(hi, x))`. -/
def clamp {K : Type} [LinearOrder K] (x lo hi : K) : K :=
  max lo (min hi x)

/-- `mean` from scoring.py: `sum(xs) / len(xs) if xs else 0.0`. -/
def mean (xs : List ℚ) : ℚ :=
  if xs = [] then 0 else xs.sum / xs.length

/-- The population variance computed inside `stddev` in scoring.py:
`sum((x - m) ** 2 for x in xs) / len(xs)`. -/
def variance (xs : List ℚ) : ℚ :=
  (xs.map (fun x => (x - mean xs) ^ 2)).sum / xs.length

/-- `stddev` from scoring.py: `0.0` on the empty list, otherwise
`math.sqrt(var)`. -/
noncomputable def stddev (xs : List ℚ) : ℝ :=
  if xs = [] then 0 else Real.sqrt ((variance xs : ℚ) : ℝ)

/-- `avg_abs_delta` from scoring.py: mean absolute day-to-day change,
`0.0` when fewer than 2 points. -/
def avg_abs_delta (xs : List ℚ) : ℚ :=
  if xs.length < 2 then 0
  else ((xs.zip xs.tail).map (fun p => |p.2 - p.1|)).sum / ((xs.length : ℚ) - 1)

/-- `linear_trend_slope` from scoring.py: OLS slope of `xs` against
`t = 0 .. n-1` in centered-sums form, `0.0` when fewer than 2 points or
when the denominator is zero. -/
def linear_trend_slope (xs : List ℚ) : ℚ :=
  if xs.length < 2 then 0
  else
    let t_mean : ℚ := ((xs.length : ℚ) - 1) / 2
    let x_mean : ℚ := mean xs
    let num : ℚ := (xs.enum.map (fun p => ((p.1 : ℚ) - t_mean) * (p.2 - x_mean))).sum
    let den : ℚ := (xs.enum.map (fun p => ((p.1 : ℚ) - t_mean) ^ 2)).sum
    if den ≠ 0 then num / den else 0

/-- `normalize_0_100` from scoring.py: affine map of `[x_min, x_max]`
onto `[0, 100]` clamped at the bounds, `0.0` on a degenerate range. -/
def normalize_0_100 {K : Type} [LinearOrderedField K] (x x_min x_max : K) : K :=
  if x_max ≤ x_min then 0
  else clamp ((x - x_min) / (x_max - x_min) * 100) 0 100

/-- `ScoringConfig` from scoring.py (a frozen dataclass). -/
structure ScoringConfig where
  vol_w_std : ℚ
  vol_w_jump : ℚ
  mood_std_min : ℚ
  mood_std_max : ℚ
  mood_jump_min : ℚ
  mood_jump_max : ℚ
  stress_decay : ℚ
  risk_w_stress : ℚ
  risk_w_sleep_deficit : ℚ
  risk_w_energy_deficit : ℚ
  risk_w_mood_downtrend : ℚ
  sleep_target : ℚ
  risk_raw_min : ℚ
  risk_raw_max : ℚ
  green_max : ℚ
  yellow_max : ℚ
  deriving DecidableEq

/-- `DEFAULT_CFG = ScoringConfig()`: the module-level default instance
with the field defaults of the dataclass. -/
def DEFAULT_CFG : ScoringConfig :=
  { vol_w_std := 0.6
    vol_w_jump := 0.4
    mood_std_min := 0
    mood_std_max := 3.5
    mood_jump_min := 0
    mood_jump_max := 4
    stress_decay := 0.8
    risk_w_stress := 0.45
    risk_w_sleep_deficit := 0.20
    risk_w_energy_deficit := 0.25
    risk_w_mood_downtrend := 0.10
    sleep_target := 8
    risk_raw_min := 0
    risk_raw_max := 10
    green_max := 33
    yellow_max := 66 }

/-- Result of `calculate_volatility` in scoring.py. -/
structure VolatilityResult where
  mood_std : ℝ
  mood_jump : ℝ
  volatility_score : ℝ

/-- `calculate_volatility` from scoring.py. -/
noncomputable def calculate_volatility (mood : List ℚ) (cfg : ScoringConfig) : VolatilityResult :=
  let s : ℝ := stddev mood
  let j : ℝ := ((avg_abs_delta mood : ℚ) : ℝ)
  let s_norm : ℝ := normalize_0_100 s ((cfg.mood_std_min : ℚ) : ℝ) ((cfg.mood_std_max : ℚ) : ℝ)
  let j_norm : ℝ := normalize_0_100 j ((cfg.mood_jump_min : ℚ) : ℝ) ((cfg.mood_jump_max : ℚ) : ℝ)
  let score : ℝ := ((cfg.vol_w_std : ℚ) : ℝ) * s_norm + ((cfg.vol_w_jump : ℚ) : ℝ) * j_norm
  { mood_std := roundTo 4 s
    mood_jump := roundTo 4 j
    volatility_score := roundTo 2 score }

/-- Result of `calculate_stress_accumulation` in scoring.py. -/
structure AccumulationResult where
  accumulation_curve : List ℚ
  accumulation_trend_slope : ℚ
  latest_accumulation : ℚ
  deriving DecidableEq

/-- The accumulation loop body of `calculate_stress_accumulation`:
starting from `prev`, repeatedly set `prev := decay * prev + s` and
collect the successive values. -/
def accumFrom (decay : ℚ) (prev : ℚ) : List ℚ → List ℚ
  | [] => []
  | s :: rest =>
    let p := decay * prev + s
    p :: accumFrom decay p rest

/-- `calculate_stress_accumulation` from scoring.py. -/
def calculate_stress_accumulation (stress : List ℚ) (cfg : ScoringConfig) : AccumulationResult :=
  let decay := clamp cfg.stress_decay 0 0.99
  let curve := accumFrom decay 0 stress
  let slope := linear_trend_slope curve
  { accumulation_curve := curve.map (roundTo 3)
    accumulation_trend_slope := roundTo 4 slope
    latest_accumulation :=
      match curve.getLast? with
      | some x => roundTo 3 x
      | none => 0 }

/-- The `Literal["Green", "Yellow", "Red"]` label type in scoring.py. -/
inductive RiskLabel where
  | Green
  | Yellow
  | Red
  deriving DecidableEq

/-- A candidate reason tuple `(name, contribution, message)` built by
`calculate_burnout_risk`. -/
structure Candidate where
  name : String
  contribution : ℚ
  message : String
  deriving DecidableEq

/-- The primary fields of the result of `calculate_burnout_risk`
(the optional `components_debug` payload only adds diagnostic data and
never affects these fields, so it is not modelled). -/
structure BurnoutResult where
  burnout_risk_score : ℚ
  burnout_risk_label : RiskLabel
  burnout_reasons : List String
  deriving DecidableEq

/-- `sleep_deficit = max(0.0, cfg.sleep_target - avg_sleep)`. -/
def sleep_deficit (sleep : List ℚ) (cfg : ScoringConfig) : ℚ :=
  max 0 (cfg.sleep_target - mean sleep)

/-- `energy_deficit = max(0.0, 10.0 - avg_energy)`. -/
def energy_deficit (energy : List ℚ) : ℚ :=
  max 0 (10 - mean energy)

/-- `mood_downtrend = max(0.0, -mood_slope)`. -/
def mood_downtrend (mood : List ℚ) : ℚ :=
  max 0 (-(linear_trend_slope mood))

/-- `stress_term = cfg.risk_w_stress * avg_stress`. -/
def stress_term (stress : List ℚ) (cfg : ScoringConfig) : ℚ :=
  cfg.risk_w_stress * mean stress

/-- `sleep_term = cfg.risk_w_sleep_deficit * (sleep_deficit * 2.0)`. -/
def sleep_term (sleep : List ℚ) (cfg : ScoringConfig) : ℚ :=
  cfg.risk_w_sleep_deficit * (sleep_deficit sleep cfg * 2)

/-- `energy_term = cfg.risk_w_energy_deficit * (energy_deficit / 2.0)`. -/
def energy_term (energy : List ℚ) (cfg : ScoringConfig) : ℚ :=
  cfg.risk_w_energy_deficit * (energy_deficit energy / 2)

/-- `mood_term = cfg.risk_w_mood_downtrend * (mood_downtrend * 5.0)`. -/
def mood_term (mood : List ℚ) (cfg : ScoringConfig) : ℚ :=
  cfg.risk_w_mood_downtrend * (mood_downtrend mood * 5)

/-- `risk_raw = stress_term + sleep_term + energy_term + mood_term`. -/
def risk_raw (mood stress sleep energy : List ℚ) (cfg : ScoringConfig) : ℚ :=
  stress_term stress cfg + sleep_term sleep cfg + energy_term energy cfg + mood_term mood cfg

/-- `risk_score = normalize_0_100(risk_raw, cfg.risk_raw_min, cfg.risk_raw_max)`
(the unrounded normalized risk score used for the label). -/
def risk_score (mood stress sleep energy : List ℚ) (cfg : ScoringConfig) : ℚ :=
  normalize_0_100 (risk_raw mood stress sleep energy cfg) cfg.risk_raw_min cfg.risk_raw_max

/-- The stress gate of `calculate_burnout_risk` (`if avg_stress >= 7.0
... elif avg_stress >= 5.5 ...`). -/
def stressCandidates (stress : List ℚ) (cfg : ScoringConfig) : List Candidate :=
  if 7 ≤ mean stress then
    [⟨"stress", stress_term stress cfg, "High average stress over the past week."⟩]
  else if 5.5 ≤ mean stress then
    [⟨"stress", stress_term stress cfg, "Moderate stress levels have been persistent."⟩]
  else []

/-- The sleep gate of `calculate_burnout_risk`. -/
def sleepCandidates (sleep : List ℚ) (cfg : ScoringConfig) : List Candidate :=
  if 2 ≤ sleep_deficit sleep cfg then
    [⟨"sleep", sleep_term sleep cfg, "Significant sleep deficit compared to the 8-hour target."⟩]
  else if 1 ≤ sleep_deficit sleep cfg then
    [⟨"sleep", sleep_term sleep cfg, "Not consistently meeting the 8-hour sleep target."⟩]
  else []

/-- The energy gate of `calculate_burnout_risk`. -/
def energyCandidates (energy : List ℚ) (cfg : ScoringConfig) : List Candidate :=
  if 4 ≤ energy_deficit energy then
    [⟨"energy", energy_term energy cfg, "Low energy levels on average."⟩]
  else if 2 ≤ energy_deficit energy then
    [⟨"energy", energy_term energy cfg, "Energy levels have been slightly below ideal."⟩]
  else []

/-- The mood-trend gate of `calculate_burnout_risk`. -/
def moodCandidates (mood : List ℚ) (cfg : ScoringConfig) : List Candidate :=
  if 0.35 ≤ mood_downtrend mood then
    [⟨"mood", mood_term mood cfg, "Mood has been trending downward across the week."⟩]
  else if 0.20 ≤ mood_downtrend mood then
    [⟨"mood", mood_term mood cfg, "Slight downward mood trend detected."⟩]
  else []

/-- The candidate list of `calculate_burnout_risk`, in the insertion
order of the source: stress, sleep, energy, mood. -/
def burnoutCandidates (mood stress sleep energy : List ℚ) (cfg : ScoringConfig) : List Candidate :=
  stressCandidates stress cfg ++ sleepCandidates sleep cfg
    ++ energyCandidates energy cfg ++ moodCandidates mood cfg

/-- The comparison used by `candidates.sort(key=lambda x: x[1],
reverse=True)`: weighted contribution, descending.  A stable sort under
this total preorder is exactly what the Python stable sort produces. -/
def contribGE (a b : Candidate) : Prop :=
  b.contribution ≤ a.contribution

instance : DecidableRel contribGE := fun a b => by
  unfold contribGE; infer_instance

instance : IsTotal Candidate contribGE :=
  ⟨fun a b => le_total b.contribution a.contribution⟩

instance : IsTrans Candidate contribGE :=
  ⟨fun _ _ _ h h2 => le_trans h2 h⟩

/-- The fallback reason string of `calculate_burnout_risk`. -/
def fallbackReason : String :=
  "Overall indicators look stable this week."

/-- `calculate_burnout_risk` from scoring.py (primary fields; `debug`
only attaches extra diagnostics).  `max_reasons` defaults to 3 at the
call sites. -/
def calculate_burnout_risk (mood stress sleep energy : List ℚ) (cfg : ScoringConfig)
    (max_reasons : ℤ) : BurnoutResult :=
  let score := risk_score mood stress sleep energy cfg
  let label : RiskLabel :=
    if score ≤ cfg.green_max then .Green
    else if score ≤ cfg.yellow_max then .Yellow
    else .Red
  let sorted := (burnoutCandidates mood stress sleep energy cfg).insertionSort contribGE
  let reasons := (sorted.take (max 0 max_reasons).toNat).map Candidate.message
  let reasons := if reasons = [] then [fallbackReason] else reasons
  { burnout_risk_score := roundTo 2 score
    burnout_risk_label := label
    burnout_reasons := reasons }

/-- `calculate_emotional_battery` from scoring.py. -/
def calculate_emotional_battery (stress energy : List ℚ) : ℚ :=
  let s := mean stress
  let e := mean energy
  let battery := 100 - (0.6 * s + 0.4 * (10 - e)) * 10
  roundTo 2 (clamp battery 0 100)

/-- The input mapping of `generate_report`: the four required series. -/
structure ReportInput where
  mood : List ℚ
  stress : List ℚ
  sleep : List ℚ
  energy : List ℚ

/-- The report structure assembled by `generate_report`. -/
structure Report where
  volatility : VolatilityResult
  stress_accumulation : AccumulationResult
  burnout_risk : BurnoutResult
  emotional_battery : ℚ
  disclaimer : String

/-- `generate_report` from scoring.py (it calls `calculate_burnout_risk`
with the default `max_reasons = 3`). -/
noncomputable def generate_report (data : ReportInput) (cfg : ScoringConfig) : Report :=
  { volatility := calculate_volatility data.mood cfg
    stress_accumulation := calculate_stress_accumulation data.stress cfg
    burnout_risk := calculate_burnout_risk data.mood data.stress data.sleep data.energy cfg 3
    emotional_battery := calculate_emotional_battery data.stress data.energy
    disclaimer := "Wellness insights only. Not medical diagnosis." }

/-- One entry of the `logs` array of an `/analysis/calculate` request in
main.py (`DailyLogSchema`): integer mood, stress, energy and a float
sleep value. -/
structure DailyLog where
  day : ℤ
  mood : ℤ
  stress : ℤ
  energy : ℤ
  sleep : ℚ
  deriving Inhabited

/-- The JSON body returned by `calculate_metrics` in main.py. -/
structure AnalysisResponse where
  volatilityScore : ℝ
  stressAccumulation : List ℚ
  burnoutLikelihood : ℚ
  riskLevel : String
  emotionalBattery : ℚ
  loveStressBalance : ℚ

/-- The numeric computation of the `/analysis/calculate` endpoint
(`calculate_metrics` in main.py), after the length guard; `none` models
the 400 response for fewer than 2 logs.  The database writes and the
user lookup do not affect the returned metrics and are not modelled.
Note that main.py computes all metrics itself with its own formulas; it
never calls the scoring engine. -/
noncomputable def calculate_metrics (logs : List DailyLog) : Option AnalysisResponse :=
  if logs.length < 2 then none
  else
    let moods : List ℚ := logs.map (fun l => (l.mood : ℚ))
    let mean_mood : ℚ := moods.sum / moods.length
    let var_mood : ℚ := (moods.map (fun x => (x - mean_mood) ^ 2)).sum / moods.length
    let std_dev : ℝ := Real.sqrt ((var_mood : ℚ) : ℝ)
    let jumps : ℚ := ((moods.zip moods.tail).map (fun p => |p.2 - p.1|)).sum
    let avg_jump : ℚ := jumps / ((moods.length : ℚ) - 1)
    let volatility : ℝ := min 100 (std_dev * 15 + ((avg_jump : ℚ) : ℝ) * 10)
    let accumulation : List ℚ :=
      (accumFrom 0.8 0 (logs.map (fun l => (l.stress : ℚ)))).map (roundTo 2)
    let avg_stress : ℚ := (logs.map (fun l => (l.stress : ℚ))).sum / logs.length
    let avg_sleep : ℚ := (logs.map (fun l => l.sleep)).sum / logs.length
    let avg_energy : ℚ := (logs.map (fun l => (l.energy : ℚ))).sum / logs.length
    let sleep_def : ℚ := max 0 (8 - avg_sleep) / 8
    let energy_depletion : ℚ := (10 - avg_energy) / 10
    let burnout : ℚ := min 100 (avg_stress * 8 + sleep_def * 20 + energy_depletion * 20)
    let battery : ℚ :=
      min 100 (avg_energy * 5 + avg_sleep * 5 + ((logs.getLastD default).mood : ℚ) * 2)
    let balance : ℚ := min 100 (max 0 (100 - avg_stress * 7 + mean_mood * 3))
    let risk : String :=
      if 70 < burnout ∨ ((80 : ℝ) < volatility ∧ 40 < burnout) then "HIGH_RISK"
      else if 40 < burnout ∨ (50 : ℝ) < volatility then "CAUTION"
      else "STABLE"
    some
      { volatilityScore := volatility
        stressAccumulation := accumulation
        burnoutLikelihood := burnout
        riskLevel := risk
        emotionalBattery := battery
        loveStressBalance := balance }

section RoundLemmas

variable {K : Type} [LinearOrderedField K] [FloorRing K]

theorem roundHE_zero : roundHE (0 : K) = 0 := by
  norm_num [roundHE]

theorem roundTo_zero (n : ℕ) : roundTo n (0 : K) = 0 := by
  simp [roundTo, roundHE_zero]

theorem roundHE_nonneg {x : K} (hx : 0 ≤ x) : 0 ≤ roundHE x := by
  have hf : (0 : ℤ) ≤ ⌊x⌋ := Int.floor_nonneg.mpr hx
  simp only [roundHE]
  split_ifs <;> omega

theorem roundHE_le {x : K} {B : ℤ} (h : x ≤ B) : roundHE x ≤ B := by
  have hf : ⌊x⌋ ≤ B := by
    have h2 := Int.floor_le_floor h
    simpa using h2
  have key : ¬ x - (⌊x⌋ : K) < 1 / 2 → ⌊x⌋ + 1 ≤ B := by
    intro hnn
    have h2 : (⌊x⌋ : K) + 1 / 2 ≤ x := by
      have := not_lt.mp hnn
      linarith
    have h3 : (⌊x⌋ : K) < (B : K) := by linarith
    have h4 : ⌊x⌋ < B := by exact_mod_cast h3
    omega
  simp only [roundHE]
  split_ifs with h1 h2 h3
  · exact hf
  · exact key h1
  · exact hf
  · exact key h1

theorem roundTo_nonneg (n : ℕ) {x : K} (hx : 0 ≤ x) : 0 ≤ roundTo n x := by
  have h1 : (0 : K) ≤ x * 10 ^ n := by positivity
  have h2 := roundHE_nonneg h1
  unfold roundTo
  exact div_nonneg (by exact_mod_cast h2) (by positivity)

theorem roundTo_le_intCast (n : ℕ) {x : K} {B : ℤ} (h : x ≤ B) : roundTo n x ≤ B := by
  have h10 : (0 : K) < 10 ^ n := by positivity
  have h1 : x * 10 ^ n ≤ ((B * 10 ^ n : ℤ) : K) := by
    push_cast
    exact mul_le_mul_of_nonneg_right h h10.le
  have h2 : roundHE (x * 10 ^ n) ≤ B * 10 ^ n := roundHE_le h1
  unfold roundTo
  rw [div_le_iff₀ h10]
  calc ((roundHE (x * 10 ^ n) : ℤ) : K) ≤ ((B * 10 ^ n : ℤ) : K) := by exact_mod_cast h2
    _ = (B : K) * 10 ^ n := by push_cast; ring

end RoundLemmas

section ClampLemmas

variable {K : Type} [LinearOrder K]

theorem le_clamp (x lo hi : K) : lo ≤ clamp x lo hi :=
  le_max_left _ _

theorem clamp_le {lo hi : K} (x : K) (h : lo ≤ hi) : clamp x lo hi ≤ hi :=
  max_le h (min_le_left _ _)

theorem clamp_mono {x y : K} (lo hi : K) (h : x ≤ y) : clamp x lo hi ≤ clamp y lo hi :=
  max_le_max le_rfl (min_le_min le_rfl h)

theorem clamp_eq_lo {x lo hi : K} (h : x ≤ lo) (hlh : lo ≤ hi) : clamp x lo hi = lo := by
  rw [clamp, min_eq_right (le_trans h hlh), max_eq_left h]

theorem clamp_eq_hi {x lo hi : K} (h : hi ≤ x) (hlh : lo ≤ hi) : clamp x lo hi = hi := by
  rw [clamp, min_eq_left h, max_eq_right hlh]

end ClampLemmas

section NormalizeLemmas

variable {K : Type} [LinearOrderedField K]

theorem normalize_0_100_nonneg (x lo hi : K) : 0 ≤ normalize_0_100 x lo hi := by
  unfold normalize_0_100
  split_ifs
  · exact le_rfl
  · exact le_clamp _ _ _

theorem normalize_0_100_le_100 (x lo hi : K) : normalize_0_100 x lo hi ≤ 100 := by
  unfold normalize_0_100
  split_ifs
  · norm_num
  · exact clamp_le _ (by norm_num)

end NormalizeLemmas

/-- C5: `normalize_0_100(x, lo, hi)` is monotone non-decreasing in `x`;
it sends `x = lo` to 0; it returns 0 for `x ≤ lo`; for a proper range
`lo < hi` it sends `x = hi` (and any `x ≥ hi`) to 100; and it returns 0
whenever `hi ≤ lo`, for all inputs. -/
theorem normalize_0_100_spec (x y lo hi : ℚ) :
    (x ≤ y → normalize_0_100 x lo hi ≤ normalize_0_100 y lo hi) ∧
    normalize_0_100 lo lo hi = 0 ∧
    (x ≤ lo → normalize_0_100 x lo hi = 0) ∧
    (lo < hi → hi ≤ x → normalize_0_100 x lo hi = 100) ∧
    (hi ≤ lo → normalize_0_100 x lo hi = 0) := by
  have base : ∀ z : ℚ, z ≤ lo → normalize_0_100 z lo hi = 0 := by
    intro z hz
    unfold normalize_0_100
    split_ifs with h
    · rfl
    · have hlt : 0 < hi - lo := sub_pos.2 (not_le.1 h)
      have h1 : (z - lo) / (hi - lo) ≤ 0 :=
        div_nonpos_iff.mpr (Or.inr ⟨by linarith, hlt.le⟩)
      have hv : (z - lo) / (hi - lo) * 100 ≤ 0 :=
        mul_nonpos_iff.mpr (Or.inr ⟨h1, by norm_num⟩)
      exact clamp_eq_lo hv (by norm_num)
  refine ⟨?_, base lo le_rfl, base x, ?_, fun h => by simp [normalize_0_100, h]⟩
  · intro hxy
    unfold normalize_0_100
    split_ifs with h
    · exact le_rfl
    · have hlt : 0 < hi - lo := sub_pos.2 (not_le.1 h)
      apply clamp_mono
      have h1 : (x - lo) / (hi - lo) ≤ (y - lo) / (hi - lo) :=
        (div_le_div_iff_of_pos_right hlt).mpr (by linarith)
      exact mul_le_mul_of_nonneg_right h1 (by norm_num)
  · intro hlh hx
    unfold normalize_0_100
    rw [if_neg (not_le.2 hlh)]
    have hlt : 0 < hi - lo := sub_pos.2 hlh
    have h1 : (1 : ℚ) ≤ (x - lo) / (hi - lo) := (one_le_div hlt).2 (by linarith)
    have hv : (100 : ℚ) ≤ (x - lo) / (hi - lo) * 100 := by nlinarith
    exact clamp_eq_hi hv (by norm_num)

/-- Witness for C5 at concrete inputs. -/
theorem normalize_0_100_spec_w :
    normalize_0_100 (1 : ℚ) 0 10 ≤ normalize_0_100 (2 : ℚ) 0 10 ∧
    normalize_0_100 (-1 : ℚ) 0 10 = 0 ∧
    normalize_0_100 (12 : ℚ) 0 10 = 100 ∧
    normalize_0_100 (7 : ℚ) 9 3 = 0 :=
  ⟨(normalize_0_100_spec 1 2 0 10).1 (by norm_num),
   (normalize_0_100_spec (-1) (-1) 0 10).2.2.1 (by norm_num),
   (normalize_0_100_spec 12 12 0 10).2.2.2.1 (by norm_num) (by norm_num),
   (normalize_0_100_spec 7 7 9 3).2.2.2.2 (by norm_num)⟩

/-- C8: the numeric primitives are total over degenerate input: `mean`
and `stddev` return 0 on the empty list, `avg_abs_delta` and
`linear_trend_slope` return 0 below 2 points, the slope returns 0
whenever its centered denominator sum is 0, and `normalize_0_100`
returns 0 on a degenerate range, so no division is taken with a zero
denominator. -/
theorem numeric_primitives_total (xs : List ℚ) (x lo hi : ℚ) :
    mean [] = 0 ∧
    stddev [] = 0 ∧
    (xs.length < 2 → avg_abs_delta xs = 0) ∧
    (xs.length < 2 → linear_trend_slope xs = 0) ∧
    ((xs.enum.map (fun p => ((p.1 : ℚ) - ((xs.length : ℚ) - 1) / 2) ^ 2)).sum = 0 →
      linear_trend_slope xs = 0) ∧
    (hi ≤ lo → normalize_0_100 x lo hi = 0) := by
  refine ⟨by simp [mean], by simp [stddev], fun h => by simp [avg_abs_delta, h],
    fun h => by simp [linear_trend_slope, h], fun h => ?_,
    fun h => by simp [normalize_0_100, h]⟩
  simp only [linear_trend_slope]
  split_ifs with h1 h2
  · rfl
  · exact absurd h h2
  · rfl

/-- Witness for C8 at concrete inputs. -/
theorem numeric_primitives_total_w :
    avg_abs_delta [(5 : ℚ)] = 0 ∧ linear_trend_slope [(5 : ℚ)] = 0 ∧
    linear_trend_slope ([] : List ℚ) = 0 ∧ normalize_0_100 (7 : ℚ) 5 5 = 0 :=
  ⟨(numeric_primitives_total [(5 : ℚ)] 0 0 0).2.2.1 (by norm_num),
   (numeric_primitives_total [(5 : ℚ)] 0 0 0).2.2.2.1 (by norm_num),
   (numeric_primitives_total ([] : List ℚ) 0 0 0).2.2.2.2.1 (by simp),
   (numeric_primitives_total [] 7 5 5).2.2.2.2.2 (by norm_num)⟩

/-- C7: `calculate_emotional_battery` returns
`100 - (0.6*mean(stress) + 0.4*(10 - mean(energy)))*10` clamped to
`[0, 100]` and rounded to 2 decimals, for every pair of input series
(the definition is a single arithmetic expression, with no branching on
the input values); consequently the result always lies in `[0, 100]`. -/
theorem battery_spec (stress energy : List ℚ) :
    calculate_emotional_battery stress energy
      = roundTo 2 (clamp (100 - (0.6 * mean stress + 0.4 * (10 - mean energy)) * 10) 0 100) ∧
    0 ≤ calculate_emotional_battery stress energy ∧
    calculate_emotional_battery stress energy ≤ 100 := by
  refine ⟨rfl, ?_, ?_⟩ <;> simp only [calculate_emotional_battery]
  · exact roundTo_nonneg 2 (le_clamp _ _ _)
  · have h2 : clamp (100 - (0.6 * mean stress + 0.4 * (10 - mean energy)) * 10) (0 : ℚ) 100
        ≤ ((100 : ℤ) : ℚ) := by
      exact_mod_cast clamp_le _ (by norm_num)
    simpa using roundTo_le_intCast 2 h2

/-- C9: `generate_report` is deterministic: identical input mappings and
identical configurations yield identical reports (the embedding is a
pure function of its two arguments, with no hidden state). -/
theorem generate_report_deterministic (d₁ d₂ : ReportInput) (c₁ c₂ : ScoringConfig)
    (hd : d₁ = d₂) (hc : c₁ = c₂) :
    generate_report d₁ c₁ = generate_report d₂ c₂ := by
  subst hd
  subst hc
  rfl

/-- Witness for C9 at a concrete input. -/
theorem generate_report_deterministic_w :
    generate_report ⟨[7, 6], [5, 6], [7, 6], [8, 7]⟩ DEFAULT_CFG
      = generate_report ⟨[7, 6], [5, 6], [7, 6], [8, 7]⟩ DEFAULT_CFG :=
  generate_report_deterministic _ _ _ _ rfl rfl

/-- C10: for every input and every integer `max_reasons` (including 0
and negative values) the returned reason list is non-empty: the fallback
message is substituted whenever the truncated list is empty. -/
theorem burnout_reasons_never_empty (mood stress sleep energy : List ℚ) (cfg : ScoringConfig)
    (max_reasons : ℤ) :
    (calculate_burnout_risk mood stress sleep energy cfg max_reasons).burnout_reasons ≠ [] := by
  simp only [calculate_burnout_risk]
  split_ifs with h
  · simp
  · exact h

/-- C2: the label of `calculate_burnout_risk` is a pure three-way
threshold classifier on the normalized risk score: Green iff
`risk_score ≤ green_max`, Yellow iff
`green_max < risk_score ≤ yellow_max`, Red iff
`yellow_max < risk_score` (whenever `green_max ≤ yellow_max`, as in the
default configuration 33/66); in particular a score exactly at a
threshold takes the lower band. -/
theorem burnout_label_spec (mood stress sleep energy : List ℚ) (cfg : ScoringConfig) (mr : ℤ)
    (hgy : cfg.green_max ≤ cfg.yellow_max) :
    ((calculate_burnout_risk mood stress sleep energy cfg mr).burnout_risk_label = RiskLabel.Green
      ↔ risk_score mood stress sleep energy cfg ≤ cfg.green_max) ∧
    ((calculate_burnout_risk mood stress sleep energy cfg mr).burnout_risk_label = RiskLabel.Yellow
      ↔ (cfg.green_max < risk_score mood stress sleep energy cfg ∧
          risk_score mood stress sleep energy cfg ≤ cfg.yellow_max)) ∧
    ((calculate_burnout_risk mood stress sleep energy cfg mr).burnout_risk_label = RiskLabel.Red
      ↔ cfg.yellow_max < risk_score mood stress sleep energy cfg) := by
  by_cases h1 : risk_score mood stress sleep energy cfg ≤ cfg.green_max
  · simp [calculate_burnout_risk, h1, not_lt.2 h1, not_lt.2 (le_trans h1 hgy)]
  · by_cases h2 : risk_score mood stress sleep energy cfg ≤ cfg.yellow_max
    · simp [calculate_burnout_risk, h1, h2, not_le.1 h1, not_lt.2 h2]
    · simp [calculate_burnout_risk, h1, h2, not_le.1 h2]

/-- Witness for C2: a concrete input whose normalized risk score is
exactly the default `green_max = 33` is labelled Green. -/
theorem burnout_label_spec_w :
    risk_score [5, 5] [22/3, 22/3] [8, 8] [10, 10] DEFAULT_CFG = 33 ∧
    (calculate_burnout_risk [5, 5] [22/3, 22/3] [8, 8] [10, 10] DEFAULT_CFG 3).burnout_risk_label
      = RiskLabel.Green := by
  have hms : mean [(22 : ℚ)/3, 22/3] = 22/3 := by simp [mean]
  have hsl : mean [(8 : ℚ), 8] = 8 := by simp [mean]
  have hen : mean [(10 : ℚ), 10] = 10 := by simp [mean]
  have hmo : linear_trend_slope [(5 : ℚ), 5] = 0 := by
    norm_num [linear_trend_slope, mean, List.enum, List.enumFrom]
  have hs : risk_score [5, 5] [22/3, 22/3] [8, 8] [10, 10] DEFAULT_CFG = 33 := by
    norm_num [risk_score, risk_raw, normalize_0_100, clamp, stress_term, sleep_term,
      energy_term, mood_term, sleep_deficit, energy_deficit, mood_downtrend,
      hms, hsl, hen, hmo, DEFAULT_CFG, min_def, max_def]
  refine ⟨hs, ?_⟩
  exact (burnout_label_spec [5, 5] [22/3, 22/3] [8, 8] [10, 10] DEFAULT_CFG 3
    (by norm_num [DEFAULT_CFG])).1.mpr (by rw [hs]; norm_num [DEFAULT_CFG])

theorem roundHE_intCast {K : Type} [LinearOrderedField K] [FloorRing K] (z : ℤ) :
    roundHE ((z : K)) = z := by
  norm_num [roundHE, Int.floor_intCast]

theorem accumFrom_length (d : ℚ) (xs : List ℚ) :
    ∀ p : ℚ, (accumFrom d p xs).length = xs.length := by
  induction xs with
  | nil => intro p; rfl
  | cons s rest ih => intro p; simp [accumFrom, ih]

theorem accumFrom_get_succ (d : ℚ) (xs : List ℚ) :
    ∀ (p : ℚ) (i : ℕ) (h1 : i + 1 < (accumFrom d p xs).length)
      (h2 : i < (accumFrom d p xs).length) (h3 : i + 1 < xs.length),
      (accumFrom d p xs).get ⟨i + 1, h1⟩
        = d * (accumFrom d p xs).get ⟨i, h2⟩ + xs.get ⟨i + 1, h3⟩ := by
  induction xs with
  | nil => intro p i h1 h2 h3; simp [accumFrom] at h1
  | cons s rest ih =>
    intro p i h1 h2 h3
    cases i with
    | zero =>
      cases rest with
      | nil => simp [accumFrom, accumFrom_length] at h1
      | cons s2 rest2 => rfl
    | succ j =>
      have hA : accumFrom d p (s :: rest) = (d * p + s) :: accumFrom d (d * p + s) rest := rfl
      have b1 : j + 1 < (accumFrom d (d * p + s) rest).length := by
        have hc := h1; rw [hA] at hc; simpa using hc
      have b2 : j < (accumFrom d (d * p + s) rest).length := by omega
      have b3 : j + 1 < rest.length := by simpa using h3
      have hrec := ih (d * p + s) j b1 b2 b3
      simpa [hA] using hrec

/-- C3: `calculate_stress_accumulation` computes the recurrence
`A[0] = stress[0]`, `A[i] = decay*A[i-1] + stress[i]` with the configured
decay clamped to `[0, 0.99]` at evaluation time; on `[1,1,1,1]` with the
default decay 0.8 the 3-decimal-rounded curve is exactly
`[1.0, 1.8, 2.44, 2.952]`; and on empty input the curve is empty and the
trend slope and latest accumulation are 0. -/
theorem stress_accumulation_spec (stress : List ℚ) (cfg : ScoringConfig) :
    (calculate_stress_accumulation stress cfg).accumulation_curve
      = (accumFrom (clamp cfg.stress_decay 0 0.99) 0 stress).map (roundTo 3) ∧
    (∀ h1 : 0 < (accumFrom (clamp cfg.stress_decay 0 0.99) 0 stress).length,
      ∀ h2 : 0 < stress.length,
      (accumFrom (clamp cfg.stress_decay 0 0.99) 0 stress).get ⟨0, h1⟩
        = stress.get ⟨0, h2⟩) ∧
    (∀ (i : ℕ) (h1 : i + 1 < (accumFrom (clamp cfg.stress_decay 0 0.99) 0 stress).length)
        (h2 : i < (accumFrom (clamp cfg.stress_decay 0 0.99) 0 stress).length)
        (h3 : i + 1 < stress.length),
      (accumFrom (clamp cfg.stress_decay 0 0.99) 0 stress).get ⟨i + 1, h1⟩
        = clamp cfg.stress_decay 0 0.99
            * (accumFrom (clamp cfg.stress_decay 0 0.99) 0 stress).get ⟨i, h2⟩
          + stress.get ⟨i + 1, h3⟩) ∧
    (calculate_stress_accumulation [1, 1, 1, 1] DEFAULT_CFG).accumulation_curve
      = [1, 1.8, 2.44, 2.952] ∧
    calculate_stress_accumulation [] cfg = ⟨[], 0, 0⟩ := by
  refine ⟨rfl, ?_, fun i h1 h2 h3 => accumFrom_get_succ _ _ _ i h1 h2 h3, ?_, ?_⟩
  · intro h1 h2
    cases stress with
    | nil => exact absurd h2 (by simp)
    | cons s rest =>
      show clamp cfg.stress_decay 0 0.99 * 0 + s = s
      ring
  · have r1 : roundTo 3 (1 : ℚ) = 1 := by
      rw [roundTo, show (1 : ℚ) * 10 ^ 3 = ((1000 : ℤ) : ℚ) by norm_num, roundHE_intCast]
      norm_num
    have r2 : roundTo 3 (9/5 : ℚ) = 9/5 := by
      rw [roundTo, show (9/5 : ℚ) * 10 ^ 3 = ((1800 : ℤ) : ℚ) by norm_num, roundHE_intCast]
      norm_num
    have r3 : roundTo 3 (61/25 : ℚ) = 61/25 := by
      rw [roundTo, show (61/25 : ℚ) * 10 ^ 3 = ((2440 : ℤ) : ℚ) by norm_num, roundHE_intCast]
      norm_num
    have r4 : roundTo 3 (369/125 : ℚ) = 369/125 := by
      rw [roundTo, show (369/125 : ℚ) * 10 ^ 3 = ((2952 : ℤ) : ℚ) by norm_num, roundHE_intCast]
      norm_num
    norm_num [calculate_stress_accumulation, accumFrom, clamp, min_def, max_def,
      DEFAULT_CFG, r1, r2, r3, r4]
  · simp [calculate_stress_accumulation, accumFrom, linear_trend_slope, roundTo_zero]

/-- Witness for C3: the recurrence conjuncts instantiated on the series
`[1, 1]` with the default configuration. -/
theorem stress_accumulation_spec_w :
    (accumFrom (clamp DEFAULT_CFG.stress_decay 0 0.99) 0 [1, 1]).get
        ⟨1, by simp [accumFrom_length]⟩
      = clamp DEFAULT_CFG.stress_decay 0 0.99
          * (accumFrom (clamp DEFAULT_CFG.stress_decay 0 0.99) 0 [1, 1]).get
              ⟨0, by simp [accumFrom_length]⟩
        + 1 ∧
    (accumFrom (clamp DEFAULT_CFG.stress_decay 0 0.99) 0 [1, 1]).get
        ⟨0, by simp [accumFrom_length]⟩ = 1 := by
  have h1 := (stress_accumulation_spec [1, 1] DEFAULT_CFG).2.2.1 0
    (by simp [accumFrom_length]) (by simp [accumFrom_length]) (by norm_num)
  have h2 := (stress_accumulation_spec [1, 1] DEFAULT_CFG).2.1
    (by simp [accumFrom_length]) (by norm_num)
  constructor
  · simpa using h1
  · simpa using h2

theorem mem_stressCandidates (stress : List ℚ) (cfg : ScoringConfig) :
    ∀ c ∈ stressCandidates stress cfg,
      c.name = "stress" ∧
      (c.message = "High average stress over the past week." ∨
        c.message = "Moderate stress levels have been persistent.") := by
  intro c hc
  unfold stressCandidates at hc
  split_ifs at hc <;> simp at hc <;> simp [hc]

theorem mem_sleepCandidates (sleep : List ℚ) (cfg : ScoringConfig) :
    ∀ c ∈ sleepCandidates sleep cfg,
      c.name = "sleep" ∧
      (c.message = "Significant sleep deficit compared to the 8-hour target." ∨
        c.message = "Not consistently meeting the 8-hour sleep target.") := by
  intro c hc
  unfold sleepCandidates at hc
  split_ifs at hc <;> simp at hc <;> simp [hc]

theorem mem_energyCandidates (energy : List ℚ) (cfg : ScoringConfig) :
    ∀ c ∈ energyCandidates energy cfg,
      c.name = "energy" ∧
      (c.message = "Low energy levels on average." ∨
        c.message = "Energy levels have been slightly below ideal.") := by
  intro c hc
  unfold energyCandidates at hc
  split_ifs at hc <;> simp at hc <;> simp [hc]

theorem mem_moodCandidates (mood : List ℚ) (cfg : ScoringConfig) :
    ∀ c ∈ moodCandidates mood cfg,
      c.name = "mood" ∧
      (c.message = "Mood has been trending downward across the week." ∨
        c.message = "Slight downward mood trend detected.") := by
  intro c hc
  unfold moodCandidates at hc
  split_ifs at hc <;> simp at hc <;> simp [hc]

theorem burnoutCandidates_message_ne (mood stress sleep energy : List ℚ) (cfg : ScoringConfig) :
    ∀ c ∈ burnoutCandidates mood stress sleep energy cfg, c.message ≠ fallbackReason := by
  intro c hc
  simp only [burnoutCandidates, List.mem_append] at hc
  rcases hc with ((hc | hc) | hc) | hc
  · rcases (mem_stressCandidates stress cfg c hc).2 with h | h <;> rw [h] <;> decide
  · rcases (mem_sleepCandidates sleep cfg c hc).2 with h | h <;> rw [h] <;> decide
  · rcases (mem_energyCandidates energy cfg c hc).2 with h | h <;> rw [h] <;> decide
  · rcases (mem_moodCandidates mood cfg c hc).2 with h | h <;> rw [h] <;> decide

theorem length_stressCandidates (stress : List ℚ) (cfg : ScoringConfig) :
    (stressCandidates stress cfg).length ≤ 1 := by
  unfold stressCandidates
  split_ifs <;> simp

theorem length_sleepCandidates (sleep : List ℚ) (cfg : ScoringConfig) :
    (sleepCandidates sleep cfg).length ≤ 1 := by
  unfold sleepCandidates
  split_ifs <;> simp

theorem length_energyCandidates (energy : List ℚ) (cfg : ScoringConfig) :
    (energyCandidates energy cfg).length ≤ 1 := by
  unfold energyCandidates
  split_ifs <;> simp

theorem length_moodCandidates (mood : List ℚ) (cfg : ScoringConfig) :
    (moodCandidates mood cfg).length ≤ 1 := by
  unfold moodCandidates
  split_ifs <;> simp

theorem countP_eq_zero_of_name {nm : String} {l : List Candidate}
    (h : ∀ c ∈ l, c.name ≠ nm) : l.countP (fun c => c.name = nm) = 0 :=
  List.countP_eq_zero.mpr (by intro c hc; simpa using h c hc)

/-- Stability of `orderedInsert` under the contribution preorder: the
sublist of candidates with a fixed contribution gains the inserted
element at the front exactly when it has that contribution. -/
theorem filter_orderedInsert_contrib (a : Candidate) (l : List Candidate) (q : ℚ) :
    (l.orderedInsert contribGE a).filter (fun c => c.contribution = q)
      = if a.contribution = q
        then a :: l.filter (fun c => c.contribution = q)
        else l.filter (fun c => c.contribution = q) := by
  induction l with
  | nil => by_cases h : a.contribution = q <;> simp [List.orderedInsert, h]
  | cons b l ih =>
    by_cases hab : contribGE a b
    · simp only [List.orderedInsert, if_pos hab]
      by_cases h : a.contribution = q <;> simp [h, List.filter_cons]
    · simp only [List.orderedInsert, if_neg hab]
      by_cases hb : b.contribution = q
      · by_cases h : a.contribution = q
        · exfalso
          exact hab (le_of_eq (hb.trans h.symm))
        · simp [h, hb, ih, List.filter_cons]
      · by_cases h : a.contribution = q <;> simp [h, hb, ih, List.filter_cons]

/-- Stability of the sort used by `calculate_burnout_risk`: filtering
the sorted candidate list at any fixed contribution value returns those
candidates in their original insertion order. -/
theorem filter_insertionSort_contrib (l : List Candidate) (q : ℚ) :
    (l.insertionSort contribGE).filter (fun c => c.contribution = q)
      = l.filter (fun c => c.contribution = q) := by
  induction l with
  | nil => rfl
  | cons a l ih =>
    simp only [List.insertionSort]
    rw [filter_orderedInsert_contrib]
    by_cases h : a.contribution = q <;> simp [h, ih, List.filter_cons]

theorem countP_burnoutCandidates_le_one (mood stress sleep energy : List ℚ)
    (cfg : ScoringConfig) (nm : String) :
    (burnoutCandidates mood stress sleep energy cfg).countP (fun c => c.name = nm) ≤ 1 := by
  have b1 : (stressCandidates stress cfg).countP (fun c => c.name = nm) ≤ 1 :=
    le_trans (List.countP_le_length _) (length_stressCandidates stress cfg)
  have b2 : (sleepCandidates sleep cfg).countP (fun c => c.name = nm) ≤ 1 :=
    le_trans (List.countP_le_length _) (length_sleepCandidates sleep cfg)
  have b3 : (energyCandidates energy cfg).countP (fun c => c.name = nm) ≤ 1 :=
    le_trans (List.countP_le_length _) (length_energyCandidates energy cfg)
  have b4 : (moodCandidates mood cfg).countP (fun c => c.name = nm) ≤ 1 :=
    le_trans (List.countP_le_length _) (length_moodCandidates mood cfg)
  have z1 : nm ≠ "stress" → (stressCandidates stress cfg).countP (fun c => c.name = nm) = 0 :=
    fun h => countP_eq_zero_of_name
      (fun c hc => by rw [(mem_stressCandidates stress cfg c hc).1]; exact Ne.symm h)
  have z2 : nm ≠ "sleep" → (sleepCandidates sleep cfg).countP (fun c => c.name = nm) = 0 :=
    fun h => countP_eq_zero_of_name
      (fun c hc => by rw [(mem_sleepCandidates sleep cfg c hc).1]; exact Ne.symm h)
  have z3 : nm ≠ "energy" → (energyCandidates energy cfg).countP (fun c => c.name = nm) = 0 :=
    fun h => countP_eq_zero_of_name
      (fun c hc => by rw [(mem_energyCandidates energy cfg c hc).1]; exact Ne.symm h)
  have z4 : nm ≠ "mood" → (moodCandidates mood cfg).countP (fun c => c.name = nm) = 0 :=
    fun h => countP_eq_zero_of_name
      (fun c hc => by rw [(mem_moodCandidates mood cfg c hc).1]; exact Ne.symm h)
  rw [burnoutCandidates, List.countP_append, List.countP_append, List.countP_append]
  by_cases h1 : nm = "stress"
  · rw [z2 (by rw [h1]; decide), z3 (by rw [h1]; decide), z4 (by rw [h1]; decide)]
    omega
  · by_cases h2 : nm = "sleep"
    · rw [z1 (by rw [h2]; decide), z3 (by rw [h2]; decide), z4 (by rw [h2]; decide)]
      omega
    · by_cases h3 : nm = "energy"
      · rw [z1 (by rw [h3]; decide), z2 (by rw [h3]; decide), z4 (by rw [h3]; decide)]
        omega
      · by_cases h4 : nm = "mood"
        · rw [z1 (by rw [h4]; decide), z2 (by rw [h4]; decide), z3 (by rw [h4]; decide)]
          omega
        · rw [z1 h1, z2 h2, z3 h3, z4 h4]
          omega

/-- C1 (amended): for `max_reasons ≥ 1`, each of the four factors
contributes at most one candidate (with the high-threshold message
taking precedence), the sorted candidate list is weakly descending in
weighted contribution and stable (candidates with equal contribution
keep insertion order stress, sleep, energy, mood), the reason list is
the top `max_reasons` messages of that sorted list, the fallback message
appears iff no gate fired, and the reason list length never exceeds
`max_reasons`.  (The unamended claim fails at `max_reasons = 0`: see the
counterexample.) -/
theorem burnout_reasons_policy (mood stress sleep energy : List ℚ) (cfg : ScoringConfig)
    (mr : ℤ) (hmr : 1 ≤ mr) :
    (∀ nm : String,
      (burnoutCandidates mood stress sleep energy cfg).countP (fun c => c.name = nm) ≤ 1) ∧
    (7 ≤ mean stress → stressCandidates stress cfg
      = [⟨"stress", stress_term stress cfg, "High average stress over the past week."⟩]) ∧
    (2 ≤ sleep_deficit sleep cfg → sleepCandidates sleep cfg
      = [⟨"sleep", sleep_term sleep cfg,
          "Significant sleep deficit compared to the 8-hour target."⟩]) ∧
    (4 ≤ energy_deficit energy → energyCandidates energy cfg
      = [⟨"energy", energy_term energy cfg, "Low energy levels on average."⟩]) ∧
    (0.35 ≤ mood_downtrend mood → moodCandidates mood cfg
      = [⟨"mood", mood_term mood cfg, "Mood has been trending downward across the week."⟩]) ∧
    List.Sorted contribGE
      ((burnoutCandidates mood stress sleep energy cfg).insertionSort contribGE) ∧
    (∀ q : ℚ,
      ((burnoutCandidates mood stress sleep energy cfg).insertionSort contribGE).filter
          (fun c => c.contribution = q)
        = (burnoutCandidates mood stress sleep energy cfg).filter
            (fun c => c.contribution = q)) ∧
    (burnoutCandidates mood stress sleep energy cfg ≠ [] →
      (calculate_burnout_risk mood stress sleep energy cfg mr).burnout_reasons
        = (((burnoutCandidates mood stress sleep energy cfg).insertionSort contribGE).take
            (max 0 mr).toNat).map Candidate.message ∧
      fallbackReason ∉ (calculate_burnout_risk mood stress sleep energy cfg mr).burnout_reasons) ∧
    (burnoutCandidates mood stress sleep energy cfg = [] →
      (calculate_burnout_risk mood stress sleep energy cfg mr).burnout_reasons
        = [fallbackReason]) ∧
    ((calculate_burnout_risk mood stress sleep energy cfg mr).burnout_reasons.length : ℤ)
      ≤ mr := by
  have hk : 1 ≤ (max 0 mr).toNat := by omega
  have hA : burnoutCandidates mood stress sleep energy cfg ≠ [] →
      (calculate_burnout_risk mood stress sleep energy cfg mr).burnout_reasons
        = (((burnoutCandidates mood stress sleep energy cfg).insertionSort contribGE).take
            (max 0 mr).toNat).map Candidate.message ∧
      fallbackReason ∉ (calculate_burnout_risk mood stress sleep energy cfg mr).burnout_reasons := by
    intro hne
    have hslen : (burnoutCandidates mood stress sleep energy cfg).insertionSort contribGE
        ≠ [] := by
      intro hnil
      have hl := List.length_insertionSort contribGE
        (burnoutCandidates mood stress sleep energy cfg)
      rw [hnil] at hl
      exact hne (List.length_eq_zero.mp hl.symm)
    have hR : (((burnoutCandidates mood stress sleep energy cfg).insertionSort
          contribGE).take (max 0 mr).toNat).map Candidate.message ≠ [] := by
      rw [ne_eq, List.map_eq_nil_iff, List.take_eq_nil_iff]
      rintro (h | h)
      · omega
      · exact hslen h
    have hEq : (calculate_burnout_risk mood stress sleep energy cfg mr).burnout_reasons
        = (((burnoutCandidates mood stress sleep energy cfg).insertionSort contribGE).take
            (max 0 mr).toNat).map Candidate.message := by
      simp only [calculate_burnout_risk]
      rw [if_neg hR]
    refine ⟨hEq, ?_⟩
    rw [hEq]
    intro hmem
    rw [List.mem_map] at hmem
    obtain ⟨c, hc, hmsg⟩ := hmem
    have hcs : c ∈ burnoutCandidates mood stress sleep energy cfg :=
      (List.mem_insertionSort contribGE).1 (List.mem_of_mem_take hc)
    exact burnoutCandidates_message_ne mood stress sleep energy cfg c hcs hmsg
  have hB : burnoutCandidates mood stress sleep energy cfg = [] →
      (calculate_burnout_risk mood stress sleep energy cfg mr).burnout_reasons
        = [fallbackReason] := by
    intro hemp
    simp only [calculate_burnout_risk, hemp]
    simp [List.insertionSort]
  have hlen : ((calculate_burnout_risk mood stress sleep energy cfg mr).burnout_reasons.length
      : ℤ) ≤ mr := by
    by_cases hemp : burnoutCandidates mood stress sleep energy cfg = []
    · rw [hB hemp]
      simpa using hmr
    · rw [(hA hemp).1, List.length_map, List.length_take]
      have h1 : min (max 0 mr).toNat
          (((burnoutCandidates mood stress sleep energy cfg).insertionSort
            contribGE).length) ≤ (max 0 mr).toNat := min_le_left _ _
      omega
  refine ⟨countP_burnoutCandidates_le_one mood stress sleep energy cfg,
    fun h => by unfold stressCandidates; rw [if_pos h],
    fun h => by unfold sleepCandidates; rw [if_pos h],
    fun h => by unfold energyCandidates; rw [if_pos h],
    fun h => by unfold moodCandidates; rw [if_pos h],
    List.sorted_insertionSort contribGE _,
    fun q => filter_insertionSort_contrib _ q, hA, hB, hlen⟩

theorem burnoutCandidates_demo :
    burnoutCandidates [5, 5] [9, 9] [8, 8] [10, 10] DEFAULT_CFG
      = [⟨"stress", 81/20, "High average stress over the past week."⟩] := by
  have hms : mean [(9 : ℚ), 9] = 9 := by simp [mean]
  have hsl : mean [(8 : ℚ), 8] = 8 := by simp [mean]
  have hen : mean [(10 : ℚ), 10] = 10 := by simp [mean]
  have hmo : linear_trend_slope [(5 : ℚ), 5] = 0 := by
    norm_num [linear_trend_slope, mean, List.enum, List.enumFrom]
  norm_num [burnoutCandidates, stressCandidates, sleepCandidates, energyCandidates,
    moodCandidates, stress_term, sleep_deficit, energy_deficit, mood_downtrend,
    hms, hsl, hen, hmo, DEFAULT_CFG, max_def, min_def]

/-- Counterexample to C1 as stated: on a week with high average stress
(9) and `max_reasons = 0`, a gate fires (the candidate list is
non-empty) and yet the fallback message is emitted, and the returned
reason list has length 1, which exceeds the clamped `max_reasons` of 0;
so the fallback is not emitted only when no gate fires, and the length
bound fails for `max_reasons = 0`. -/
theorem burnout_reasons_claim_cex :
    burnoutCandidates [5, 5] [9, 9] [8, 8] [10, 10] DEFAULT_CFG ≠ [] ∧
    (calculate_burnout_risk [5, 5] [9, 9] [8, 8] [10, 10] DEFAULT_CFG 0).burnout_reasons
      = [fallbackReason] ∧
    ¬ ((calculate_burnout_risk [5, 5] [9, 9] [8, 8] [10, 10]
          DEFAULT_CFG 0).burnout_reasons.length
        ≤ (max 0 (0 : ℤ)).toNat) := by
  have hr : (calculate_burnout_risk [5, 5] [9, 9] [8, 8] [10, 10]
      DEFAULT_CFG 0).burnout_reasons = [fallbackReason] := by
    simp only [calculate_burnout_risk, burnoutCandidates_demo]
    simp [List.insertionSort, List.orderedInsert]
  refine ⟨by rw [burnoutCandidates_demo]; simp, hr, by rw [hr]; simp⟩

/-- Witness for C1 (amended) at a concrete input with the default
`max_reasons = 3`: the single fired gate yields exactly its message and
the length bound holds. -/
theorem burnout_reasons_policy_w :
    (calculate_burnout_risk [5, 5] [9, 9] [8, 8] [10, 10] DEFAULT_CFG 3).burnout_reasons
      = ["High average stress over the past week."] ∧
    ((calculate_burnout_risk [5, 5] [9, 9] [8, 8] [10, 10]
        DEFAULT_CFG 3).burnout_reasons.length : ℤ) ≤ 3 := by
  have policy := burnout_reasons_policy [5, 5] [9, 9] [8, 8] [10, 10] DEFAULT_CFG 3
    (by norm_num)
  obtain ⟨-, -, -, -, -, -, -, hshape, -, hlen⟩ := policy
  obtain ⟨hr, -⟩ := hshape (by rw [burnoutCandidates_demo]; simp)
  constructor
  · rw [hr, burnoutCandidates_demo]
    simp [List.insertionSort, List.orderedInsert]
  · exact hlen

theorem mean_const {c : ℚ} {xs : List ℚ} (h : ∀ x ∈ xs, x = c) (hne : xs ≠ []) :
    mean xs = c := by
  rw [mean, if_neg hne, List.sum_eq_card_nsmul xs c h, nsmul_eq_mul]
  have hlen : (xs.length : ℚ) ≠ 0 := by
    simpa using fun hh => hne (List.length_eq_zero.mp hh)
  field_simp

theorem variance_const {c : ℚ} {xs : List ℚ} (h : ∀ x ∈ xs, x = c) : variance xs = 0 := by
  cases xs with
  | nil => simp [variance]
  | cons a l =>
    have hm : mean (a :: l) = c := mean_const h (by simp)
    rw [variance]
    have hsum : ((a :: l).map (fun x => (x - mean (a :: l)) ^ 2)).sum = 0 := by
      apply List.sum_eq_zero
      intro y hy
      rw [List.mem_map] at hy
      obtain ⟨x, hx, rfl⟩ := hy
      rw [hm, h x hx]
      ring
    rw [hsum, zero_div]

theorem stddev_const {c : ℚ} {xs : List ℚ} (h : ∀ x ∈ xs, x = c) : stddev xs = 0 := by
  rw [stddev]
  split_ifs
  · rfl
  · rw [variance_const h]
    simp

theorem avg_abs_delta_const {c : ℚ} {xs : List ℚ} (h : ∀ x ∈ xs, x = c) :
    avg_abs_delta xs = 0 := by
  rw [avg_abs_delta]
  split_ifs with hlt
  · rfl
  · have hsum : ((xs.zip xs.tail).map (fun p => |p.2 - p.1|)).sum = 0 := by
      apply List.sum_eq_zero
      intro y hy
      rw [List.mem_map] at hy
      obtain ⟨p, hp, rfl⟩ := hy
      obtain ⟨p1, p2⟩ := p
      have h1 : p1 ∈ xs := (List.of_mem_zip hp).1
      have h2 : p2 ∈ xs := List.mem_of_mem_tail (List.of_mem_zip hp).2
      rw [h p1 h1, h p2 h2]
      simp
    rw [hsum, zero_div]

theorem linear_trend_slope_const {c : ℚ} {xs : List ℚ} (h : ∀ x ∈ xs, x = c) :
    linear_trend_slope xs = 0 := by
  simp only [linear_trend_slope]
  split_ifs with hlt hden
  · rfl
  · have hne : xs ≠ [] := by
      intro hh
      rw [hh] at hlt
      exact hlt (by simp)
    have hm : mean xs = c := mean_const h hne
    have hnum :
        (xs.enum.map (fun p =>
          ((p.1 : ℚ) - ((xs.length : ℚ) - 1) / 2) * (p.2 - mean xs))).sum = 0 := by
      apply List.sum_eq_zero
      intro y hy
      rw [List.mem_map] at hy
      obtain ⟨p, hp, rfl⟩ := hy
      rw [hm, h p.2 (List.snd_mem_of_mem_enum hp)]
      ring
    rw [hnum, zero_div]
  · rfl

/-- C6: `calculate_volatility` returns the raw std and jump rounded to
4 decimals and the composite `0.6*norm(std) + 0.4*norm(jump)` (default
weights and bounds) rounded to 2 decimals; on every constant mood series
the std, jump and trend slope are 0 and the volatility score is 0; and
for every input the volatility score lies in `[0, 100]`. -/
theorem volatility_spec (mood : List ℚ) (c : ℚ) :
    (calculate_volatility mood DEFAULT_CFG).mood_std = roundTo 4 (stddev mood) ∧
    (calculate_volatility mood DEFAULT_CFG).mood_jump
      = roundTo 4 ((avg_abs_delta mood : ℚ) : ℝ) ∧
    (calculate_volatility mood DEFAULT_CFG).volatility_score
      = roundTo 2 ((0.6 : ℝ) * normalize_0_100 (stddev mood) 0 3.5
          + (0.4 : ℝ) * normalize_0_100 ((avg_abs_delta mood : ℚ) : ℝ) 0 4) ∧
    ((∀ x ∈ mood, x = c) →
      stddev mood = 0 ∧ avg_abs_delta mood = 0 ∧ linear_trend_slope mood = 0 ∧
      (calculate_volatility mood DEFAULT_CFG).volatility_score = 0) ∧
    0 ≤ (calculate_volatility mood DEFAULT_CFG).volatility_score ∧
    (calculate_volatility mood DEFAULT_CFG).volatility_score ≤ 100 := by
  have hw : ((DEFAULT_CFG.vol_w_std : ℚ) : ℝ) = 0.6 ∧ ((DEFAULT_CFG.vol_w_jump : ℚ) : ℝ) = 0.4
      ∧ ((DEFAULT_CFG.mood_std_min : ℚ) : ℝ) = 0 ∧ ((DEFAULT_CFG.mood_std_max : ℚ) : ℝ) = 3.5
      ∧ ((DEFAULT_CFG.mood_jump_min : ℚ) : ℝ) = 0
      ∧ ((DEFAULT_CFG.mood_jump_max : ℚ) : ℝ) = 4 := by
    norm_num [DEFAULT_CFG]
  obtain ⟨hw1, hw2, hw3, hw4, hw5, hw6⟩ := hw
  have hrange : 0 ≤ (calculate_volatility mood DEFAULT_CFG).volatility_score ∧
      (calculate_volatility mood DEFAULT_CFG).volatility_score ≤ 100 := by
    simp only [calculate_volatility, hw1, hw2, hw3, hw4, hw5, hw6]
    have hs1 := normalize_0_100_nonneg (stddev mood) (0 : ℝ) 3.5
    have hs2 := normalize_0_100_le_100 (stddev mood) (0 : ℝ) 3.5
    have hj1 := normalize_0_100_nonneg ((avg_abs_delta mood : ℚ) : ℝ) (0 : ℝ) 4
    have hj2 := normalize_0_100_le_100 ((avg_abs_delta mood : ℚ) : ℝ) (0 : ℝ) 4
    constructor
    · exact roundTo_nonneg 2 (by nlinarith)
    · have hb : (0.6 : ℝ) * normalize_0_100 (stddev mood) 0 3.5
          + (0.4 : ℝ) * normalize_0_100 ((avg_abs_delta mood : ℚ) : ℝ) 0 4
          ≤ ((100 : ℤ) : ℝ) := by
        push_cast
        nlinarith
      have := roundTo_le_intCast 2 hb
      simpa using this
  refine ⟨rfl, rfl, by simp only [calculate_volatility, hw1, hw2, hw3, hw4, hw5, hw6],
    ?_, hrange⟩
  intro hconst
  have h1 : stddev mood = 0 := stddev_const hconst
  have h2 : avg_abs_delta mood = 0 := avg_abs_delta_const hconst
  have h3 : linear_trend_slope mood = 0 := linear_trend_slope_const hconst
  refine ⟨h1, h2, h3, ?_⟩
  simp only [calculate_volatility, hw1, hw2, hw3, hw4, hw5, hw6, h1, h2]
  norm_num [normalize_0_100, clamp, min_def, max_def, roundTo_zero]

/-- Witness for C6 on the constant series `[3, 3]`. -/
theorem volatility_spec_w :
    stddev [3, 3] = 0 ∧ (calculate_volatility [3, 3] DEFAULT_CFG).volatility_score = 0 := by
  have h := (volatility_spec [3, 3] 3).2.2.2.1 (by intro x hx; simpa using hx)
  exact ⟨h.1, h.2.2.2⟩

section CastLemmas

variable {K : Type} [LinearOrderedField K] [FloorRing K]

theorem roundHE_cast (q : ℚ) : roundHE ((q : K)) = roundHE q := by
  have hfl : ⌊((q : K))⌋ = ⌊q⌋ := Rat.floor_cast q
  have hsub : (q : K) - ((⌊q⌋ : ℤ) : K) = (((q - ⌊q⌋ : ℚ)) : K) := by push_cast; ring
  have hhalf : ((1 : K) / 2) = (((1/2 : ℚ)) : K) := by norm_num
  simp only [roundHE, hfl, hsub, hhalf, Rat.cast_lt]

theorem roundTo_cast (n : ℕ) (q : ℚ) : roundTo n ((q : K)) = ((roundTo n q : ℚ) : K) := by
  have h1 : (q : K) * 10 ^ n = (((q * 10 ^ n : ℚ)) : K) := by push_cast; ring
  rw [roundTo, h1, roundHE_cast, roundTo]
  push_cast
  ring

end CastLemmas

section OrderCastLemmas

variable {K : Type} [LinearOrderedField K]

theorem clamp_cast (x lo hi : ℚ) :
    clamp ((x : K)) ((lo : K)) ((hi : K)) = ((clamp x lo hi : ℚ) : K) := by
  simp [clamp, Rat.cast_max, Rat.cast_min]

theorem normalize_0_100_cast (x lo hi : ℚ) :
    normalize_0_100 ((x : K)) ((lo : K)) ((hi : K)) = ((normalize_0_100 x lo hi : ℚ) : K) := by
  simp only [normalize_0_100]
  by_cases h : hi ≤ lo
  · rw [if_pos h, if_pos ((Rat.cast_le (K := K)).mpr h)]
    simp
  · rw [if_neg h, if_neg (fun hc => h ((Rat.cast_le (K := K)).mp hc))]
    rw [show ((x : K) - lo) / ((hi : K) - lo) * 100
        = (((x - lo) / (hi - lo) * 100 : ℚ) : K) by push_cast; ring]
    rw [show (0 : K) = ((0 : ℚ) : K) by norm_num, show (100 : K) = ((100 : ℚ) : K) by norm_num]
    exact clamp_cast _ _ _

end OrderCastLemmas

/-- The concrete request logs used to exhibit the divergence between the
endpoint and the engine: two days with moods 1 and 5 (stress 2, energy
5, sleep 8). -/
def demoLogs : List DailyLog :=
  [⟨1, 1, 2, 5, 8⟩, ⟨2, 5, 2, 5, 8⟩]

/-- C4: the `/analysis/calculate` endpoint does NOT serialize the
scoring engine output.  On the valid two-day request `demoLogs` (moods
1 and 5) the endpoint computes `volatilityScore = 70` (its own formula
`min(100, std*15 + jump*10)`), while the engine computes
`volatility_score = 74.29` on the same mood series, and these differ —
the endpoint never calls the engine and its formulas disagree with it. -/
theorem endpoint_diverges_from_engine :
    (calculate_metrics demoLogs).map AnalysisResponse.volatilityScore = some 70 ∧
    (calculate_volatility [1, 5] DEFAULT_CFG).volatility_score = 74.29 ∧
    (70 : ℝ) ≠ 74.29 := by
  refine ⟨?_, ?_, by norm_num⟩
  · have hsqrt : Real.sqrt 4 = 2 := by
      rw [show (4 : ℝ) = 2 ^ 2 by norm_num, Real.sqrt_sq (by norm_num : (0 : ℝ) ≤ 2)]
    norm_num [calculate_metrics, demoLogs, hsqrt, min_def, Option.map]
  · have hmean15 : mean [(1 : ℚ), 5] = 3 := by simp [mean]; norm_num
    have hvar : variance [1, 5] = 4 := by norm_num [variance, hmean15]
    have hjump : avg_abs_delta [1, 5] = 4 := by norm_num [avg_abs_delta]
    have hstd : stddev [1, 5] = ((2 : ℚ) : ℝ) := by
      rw [stddev, if_neg (by simp), hvar]
      rw [show (((4 : ℚ)) : ℝ) = ((2 : ℚ) : ℝ) ^ 2 by norm_num]
      exact Real.sqrt_sq (by norm_num)
    simp only [calculate_volatility, hstd, hjump]
    rw [normalize_0_100_cast, normalize_0_100_cast]
    rw [show ((DEFAULT_CFG.vol_w_std : ℚ) : ℝ)
          * ((normalize_0_100 (2 : ℚ) DEFAULT_CFG.mood_std_min DEFAULT_CFG.mood_std_max
              : ℚ) : ℝ)
        + ((DEFAULT_CFG.vol_w_jump : ℚ) : ℝ)
          * ((normalize_0_100 (4 : ℚ) DEFAULT_CFG.mood_jump_min DEFAULT_CFG.mood_jump_max
              : ℚ) : ℝ)
        = ((DEFAULT_CFG.vol_w_std
              * normalize_0_100 (2 : ℚ) DEFAULT_CFG.mood_std_min DEFAULT_CFG.mood_std_max
            + DEFAULT_CFG.vol_w_jump
              * normalize_0_100 (4 : ℚ) DEFAULT_CFG.mood_jump_min DEFAULT_CFG.mood_jump_max
            : ℚ) : ℝ) by push_cast; ring]
    rw [roundTo_cast]
    have hE : DEFAULT_CFG.vol_w_std
          * normalize_0_100 (2 : ℚ) DEFAULT_CFG.mood_std_min DEFAULT_CFG.mood_std_max
        + DEFAULT_CFG.vol_w_jump
          * normalize_0_100 (4 : ℚ) DEFAULT_CFG.mood_jump_min DEFAULT_CFG.mood_jump_max
        = 520/7 := by
      norm_num [normalize_0_100, clamp, min_def, max_def, DEFAULT_CFG]
    rw [hE]
    have hfloor : ⌊(52000/7 : ℚ)⌋ = 7428 := by
      rw [Int.floor_eq_iff]
      norm_num
    have hround : roundTo 2 (520/7 : ℚ) = 7429/100 := by
      rw [roundTo, show (520/7 : ℚ) * 10 ^ 2 = 52000/7 by norm_num]
      norm_num [roundHE, hfloor]
    rw [hround]
    norm_num

end LoveCare
